import Mathlib

/-!
Shallow embedding of the thread-persistence service
(`thread_service/thread_service/*.py`) and proofs about its claims.

Conventions of the embedding:
* Python UUIDs are opaque identifiers, modelled as `Nat`.
* Timezone-aware timestamps are modelled as `Nat` instants.
* JSON-compatible metadata values are modelled by the inductive `PyVal`;
  a metadata map is an association list `List (String × PyVal)` whose
  observable content is given by first-match lookup (`metaLookup`),
  matching Python dict semantics at the storage boundary.
* The database visible state is a `DB` record of row lists; each
  repository operation is a state transformer.  A repository operation
  runs inside a single transaction (one final `session.commit()` in the
  source), so an operation that fails returns the state unchanged and an
  operation that succeeds makes all of its rows visible at once.
* Fallible Python code is embedded with `Except` / `Option`; a raised
  `NoResultFound` becomes `RepoError.noResultFound`.
-/

namespace ThreadService

/-- Thread lifecycle states (`models.ThreadStatus`): open, paused, closed. -/
inductive ThreadStatus where
  | opened
  | paused
  | closed
deriving DecidableEq, Repr

/-- Participant roles (`models.ParticipantRole`): user, agent, tool. -/
inductive ParticipantRole where
  | user
  | agent
  | tool
deriving DecidableEq, Repr

/-- Message kinds (`models.MessageKind`): text, rich, tool_call. -/
inductive MessageKind where
  | text
  | rich
  | toolCall
deriving DecidableEq, Repr

/-- Attachment kinds (`models.AttachmentKind`): file, image, link. -/
inductive AttachmentKind where
  | file
  | image
  | link
deriving DecidableEq, Repr

/-- JSON-compatible Python values that can reach the storage boundary,
plus the two non-JSON shapes the normalizers guard against
(SQLAlchemy `MetaData` objects and `bytes`).  A dict is a list of
key-value entries in insertion order with pairwise distinct keys; keys
are arbitrary values, since Python dicts accept any hashable key. -/
inductive PyVal where
  | pyNone
  | pyBool (b : Bool)
  | pyInt (n : Int)
  | pyStr (s : String)
  | pyBytes (bs : List Nat)
  | pyDict (entries : List (PyVal × PyVal))
  | pyList (xs : List PyVal)
  | pyTuple (xs : List PyVal)
  | sqlaMetaData

/-- A Python dict over the value universe: entries in insertion order. -/
abbrev PyDict := List (PyVal × PyVal)

/-- A metadata map as stored in a JSONB column: string keys to values. -/
abbrev Meta := List (String × PyVal)

/-- First-match lookup in a metadata map (Python dict access). -/
def metaLookup (m : Meta) (k : String) : Option PyVal :=
  (m.find? (fun kv => kv.1 == k)).map (fun kv => kv.2)

/-- Row of the `users` table (`models.User`). -/
structure UserRow where
  id : Nat
  email : String
  passwordHash : Option String
  name : Option String
deriving Repr

/-- Row of the `threads` table (`models.Thread`). -/
structure ThreadRow where
  id : Nat
  userId : Nat
  title : Option String
  summary : Option String
  status : ThreadStatus
  metadata : Meta
  createdAt : Nat
  updatedAt : Nat

/-- Row of the `participants` table (`models.Participant`). -/
structure ParticipantRow where
  id : Nat
  threadId : Nat
  role : ParticipantRole
  displayName : Option String
  metadata : Meta
  createdAt : Nat

/-- Row of the `messages` table (`models.Message`). -/
structure MessageRow where
  id : Nat
  threadId : Nat
  participantId : Option Nat
  kind : MessageKind
  content : String
  metadata : Meta
  createdAt : Nat

/-- Row of the `message_attachments` table (`models.MessageAttachment`). -/
structure AttachmentRow where
  id : Nat
  messageId : Nat
  kind : AttachmentKind
  uri : String
  contentType : Option String
  metadata : Meta
  createdAt : Nat

/-- Row of the `password_reset_tokens` table (`models.PasswordResetToken`). -/
structure ResetTokenRow where
  id : Nat
  userId : Nat
  token : String
  expiresAt : Nat
deriving Repr

/-- Visible database state: one list per table, plus a fresh-id source
standing in for `uuid.uuid4` defaults. -/
structure DB where
  users : List UserRow
  threads : List ThreadRow
  participants : List ParticipantRow
  messages : List MessageRow
  attachments : List AttachmentRow
  resetTokens : List ResetTokenRow
  nextId : Nat

/-- Expected repository failures (`sqlalchemy.exc.NoResultFound`). -/
inductive RepoError where
  | noResultFound
deriving DecidableEq, Repr

/-- Validated participant payload (`schemas.ParticipantCreate`): every
field has a default, so validation cannot fail. -/
structure ParticipantCreate where
  role : ParticipantRole := .user
  displayName : Option String := none
  metadata : Meta := []

/-- Validated attachment payload (`schemas.AttachmentCreate`): `uri` is
the only required field. -/
structure AttachmentCreate where
  kind : AttachmentKind := .file
  uri : String
  contentType : Option String := none
  metadata : Meta := []

/-- Validated message payload (`schemas.MessageCreate`): `content` is
required; the type carries no non-emptiness constraint, mirroring the
bare `content: str` field of the source. -/
structure MessageCreate where
  participantId : Option Nat := none
  kind : MessageKind := .text
  content : String
  metadata : Meta := []
  attachments : List AttachmentCreate := []

/-- Validated thread payload (`schemas.ThreadCreate`). -/
structure ThreadCreate where
  title : Option String := none
  summary : Option String := none
  status : ThreadStatus := .opened
  metadata : Meta := []
  participants : List ParticipantCreate := []

/-- Raw wire attachment before pydantic validation: `uri` may be absent. -/
structure RawAttachment where
  kind : AttachmentKind := .file
  uri : Option String := none
  contentType : Option String := none
  metadata : Meta := []

/-- Raw wire message before pydantic validation: `content` may be absent. -/
structure RawMessage where
  participantId : Option Nat := none
  kind : MessageKind := .text
  content : Option String := none
  metadata : Meta := []
  attachments : List RawAttachment := []

/-- Pydantic validation failure for a missing required field. -/
inductive ValidationError where
  | missingRequiredField (field : String)
deriving DecidableEq, Repr

/-- Pydantic validation of one attachment: `uri` is required. -/
def validateAttachment (raw : RawAttachment) :
    Except ValidationError AttachmentCreate :=
  match raw.uri with
  | none => .error (.missingRequiredField "uri")
  | some u => .ok { kind := raw.kind, uri := u,
                    contentType := raw.contentType, metadata := raw.metadata }

/-- Pydantic validation of a nested attachment list: the first invalid
attachment fails the whole payload. -/
def validateAttachments : List RawAttachment →
    Except ValidationError (List AttachmentCreate)
  | [] => .ok []
  | a :: rest =>
    match validateAttachment a, validateAttachments rest with
    | .ok v, .ok vs => .ok (v :: vs)
    | .error e, _ => .error e
    | .ok _, .error e => .error e

/-- Pydantic validation of `MessageCreate`: `content` is required (a
missing field is rejected) but any string, the empty string included, is
accepted; nested attachments are validated recursively. -/
def validateMessage (raw : RawMessage) : Except ValidationError MessageCreate :=
  match raw.content, validateAttachments raw.attachments with
  | none, _ => .error (.missingRequiredField "content")
  | some _, .error e => .error e
  | some c, .ok atts =>
    .ok { participantId := raw.participantId, kind := raw.kind,
          content := c, metadata := raw.metadata, attachments := atts }

/-- Participant rows created for a new thread, with ids drawn from the
fresh-id source (`uuid.uuid4` defaults in the source). -/
def participantRows : Nat → Nat → Nat → List ParticipantCreate → List ParticipantRow
  | _, _, _, [] => []
  | i, tid, now, p :: rest =>
    { id := i, threadId := tid, role := p.role, displayName := p.displayName,
      metadata := p.metadata, createdAt := now } ::
      participantRows (i + 1) tid now rest

/-- Attachment rows created for a new message. -/
def attachmentRows : Nat → Nat → Nat → List AttachmentCreate → List AttachmentRow
  | _, _, _, [] => []
  | i, mid, now, a :: rest =>
    { id := i, messageId := mid, kind := a.kind, uri := a.uri,
      contentType := a.contentType, metadata := a.metadata, createdAt := now } ::
      attachmentRows (i + 1) mid now rest

/-- Embedding of `repositories.create_thread`: inside one transaction,
insert the thread row and one participant row per payload participant;
everything becomes visible together at commit. -/
def create_thread (db : DB) (payload : ThreadCreate) (userId : Nat)
    (now : Nat) : ThreadRow × DB :=
  let tid := db.nextId
  let thread : ThreadRow :=
    { id := tid, userId := userId, title := payload.title,
      summary := payload.summary, status := payload.status,
      metadata := payload.metadata, createdAt := now, updatedAt := now }
  let parts := participantRows (tid + 1) tid now payload.participants
  (thread,
    { db with
        threads := db.threads ++ [thread],
        participants := db.participants ++ parts,
        nextId := tid + 1 + payload.participants.length })

/-- Embedding of `repositories.append_message`: check that some thread
row has the given id (any owner — the query filters on `Thread.id`
only), then insert the message row and one attachment row per payload
attachment inside one transaction; raise `NoResultFound` when the id
matches no thread, leaving the state unchanged. -/
def append_message (db : DB) (threadId : Nat) (payload : MessageCreate)
    (now : Nat) : Except RepoError (MessageRow × DB) :=
  match db.threads.find? (fun t => t.id == threadId) with
  | none => .error .noResultFound
  | some _ =>
    let mid := db.nextId
    let msg : MessageRow :=
      { id := mid, threadId := threadId, participantId := payload.participantId,
        kind := payload.kind, content := payload.content,
        metadata := payload.metadata, createdAt := now }
    let atts := attachmentRows (mid + 1) mid now payload.attachments
    .ok (msg,
      { db with
          messages := db.messages ++ [msg],
          attachments := db.attachments ++ atts,
          nextId := mid + 1 + payload.attachments.length })

/-- Failures observable by an adapter caller. -/
inductive CallError where
  | invalidPayload (e : ValidationError)
  | notFound
deriving DecidableEq, Repr

/-- An append-message call as a whole: pydantic validation of the raw
wire payload, then the repository write.  A failure at either stage
rolls the transaction back, so the returned state is the original
database; a success returns the state with every row of the call
visible. -/
def appendMessageCall (db : DB) (threadId : Nat) (raw : RawMessage)
    (now : Nat) : Except CallError MessageRow × DB :=
  match validateMessage raw with
  | .error e => (.error (.invalidPayload e), db)
  | .ok payload =>
    match append_message db threadId payload now with
    | .error _ => (.error .notFound, db)
    | .ok (m, db2) => (.ok m, db2)

/-! Wire enum values of the gRPC adapter.  The generated proto module is
not part of the source tree; the numeric values below follow the
standard proto3 layout (an unspecified sentinel at 0, then the declared
values), and no proof depends on the exact numbers, only on which
values are inside the conversion tables of `api/grpc.py`. -/

def THREAD_STATUS_UNSPECIFIED : Nat := 0
def THREAD_STATUS_OPEN : Nat := 1
def THREAD_STATUS_PAUSED : Nat := 2
def THREAD_STATUS_CLOSED : Nat := 3

def PARTICIPANT_ROLE_UNSPECIFIED : Nat := 0
def PARTICIPANT_ROLE_USER : Nat := 1
def PARTICIPANT_ROLE_AGENT : Nat := 2
def PARTICIPANT_ROLE_TOOL : Nat := 3

def MESSAGE_KIND_UNSPECIFIED : Nat := 0
def MESSAGE_KIND_TEXT : Nat := 1
def MESSAGE_KIND_RICH : Nat := 2
def MESSAGE_KIND_TOOL_CALL : Nat := 3

def ATTACHMENT_KIND_UNSPECIFIED : Nat := 0
def ATTACHMENT_KIND_FILE : Nat := 1
def ATTACHMENT_KIND_IMAGE : Nat := 2
def ATTACHMENT_KIND_LINK : Nat := 3

/-- The `_PB_TO_THREAD_STATUS` dict of `api/grpc.py` as a partial map. -/
def pbToThreadStatus (n : Nat) : Option ThreadStatus :=
  if n = THREAD_STATUS_OPEN then some .opened
  else if n = THREAD_STATUS_PAUSED then some .paused
  else if n = THREAD_STATUS_CLOSED then some .closed
  else none

/-- The `_THREAD_STATUS_TO_PB` inverted dict; total because the domain
enum is closed, so the `.get` fallback to the unspecified value can
never fire on a domain value. -/
def threadStatusToPb : ThreadStatus → Nat
  | .opened => THREAD_STATUS_OPEN
  | .paused => THREAD_STATUS_PAUSED
  | .closed => THREAD_STATUS_CLOSED

/-- The `_PB_TO_PARTICIPANT_ROLE` dict as a partial map. -/
def pbToParticipantRole (n : Nat) : Option ParticipantRole :=
  if n = PARTICIPANT_ROLE_USER then some .user
  else if n = PARTICIPANT_ROLE_AGENT then some .agent
  else if n = PARTICIPANT_ROLE_TOOL then some .tool
  else none

/-- The `_PARTICIPANT_ROLE_TO_PB` inverted dict. -/
def participantRoleToPb : ParticipantRole → Nat
  | .user => PARTICIPANT_ROLE_USER
  | .agent => PARTICIPANT_ROLE_AGENT
  | .tool => PARTICIPANT_ROLE_TOOL

/-- The `_PB_TO_MESSAGE_KIND` dict as a partial map. -/
def pbToMessageKind (n : Nat) : Option MessageKind :=
  if n = MESSAGE_KIND_TEXT then some .text
  else if n = MESSAGE_KIND_RICH then some .rich
  else if n = MESSAGE_KIND_TOOL_CALL then some .toolCall
  else none

/-- The `_MESSAGE_KIND_TO_PB` inverted dict. -/
def messageKindToPb : MessageKind → Nat
  | .text => MESSAGE_KIND_TEXT
  | .rich => MESSAGE_KIND_RICH
  | .toolCall => MESSAGE_KIND_TOOL_CALL

/-- The `_PB_TO_ATTACHMENT_KIND` dict as a partial map. -/
def pbToAttachmentKind (n : Nat) : Option AttachmentKind :=
  if n = ATTACHMENT_KIND_FILE then some .file
  else if n = ATTACHMENT_KIND_IMAGE then some .image
  else if n = ATTACHMENT_KIND_LINK then some .link
  else none

/-- The `_ATTACHMENT_KIND_TO_PB` inverted dict. -/
def attachmentKindToPb : AttachmentKind → Nat
  | .file => ATTACHMENT_KIND_FILE
  | .image => ATTACHMENT_KIND_IMAGE
  | .link => ATTACHMENT_KIND_LINK

/-- Wire-to-domain participant role in `ThreadService.CreateThread`:
`_PB_TO_PARTICIPANT_ROLE.get(p.role, ParticipantRole.USER)`. -/
def grpcReceiveParticipantRole (n : Nat) : ParticipantRole :=
  (pbToParticipantRole n).getD .user

/-- Wire-to-domain message kind in `ThreadService.AppendMessage`:
`_PB_TO_MESSAGE_KIND.get(request.kind, MessageKind.TEXT)`. -/
def grpcReceiveMessageKind (n : Nat) : MessageKind :=
  (pbToMessageKind n).getD .text

/-- Wire-to-domain attachment kind in `ThreadService.AppendMessage`:
`_PB_TO_ATTACHMENT_KIND.get(att.kind, AttachmentKind.FILE)`. -/
def grpcReceiveAttachmentKind (n : Nat) : AttachmentKind :=
  (pbToAttachmentKind n).getD .file

/-- Wire-to-domain status filter in `ThreadService.ListThreads`:
`_PB_TO_THREAD_STATUS.get(request.status)` with `None` as the implicit
default. -/
def grpcStatusFilter (n : Nat) : Option ThreadStatus :=
  pbToThreadStatus n

/-- A proto attachment inside an `AppendMessageRequest`; proto3 scalar
fields are always present, with `""` and `0` as defaults. -/
structure GrpcAttachment where
  kind : Nat := ATTACHMENT_KIND_UNSPECIFIED
  uri : String := ""
  contentType : String := ""
  metadata : Meta := []

/-- A proto `AppendMessageRequest`, after UUID parsing of the id fields. -/
structure GrpcAppendMessageRequest where
  threadId : Nat
  participantId : Option Nat := none
  kind : Nat := MESSAGE_KIND_UNSPECIFIED
  content : String := ""
  metadata : Meta := []
  attachments : List GrpcAttachment := []

/-- gRPC call outcome: a domain value or an aborted status code. -/
inductive GrpcOutcome (α : Type) where
  | ok (a : α)
  | abortedNotFound
deriving Repr

/-- Embedding of `ThreadService.AppendMessage` in `api/grpc.py`: build a
`MessageCreate` from the request (every wire enum converted with a
normal-value default, `content` taken verbatim), then call the
repository `append_message` with the thread id alone.  No credential is
read, no owner is resolved, and no ownership filter is applied — the
servicer has no identity input at all.  `NoResultFound` is mapped to a
NOT_FOUND abort; on failure the transaction leaves the state unchanged. -/
def grpcAppendMessage (db : DB) (req : GrpcAppendMessageRequest)
    (now : Nat) : GrpcOutcome MessageRow × DB :=
  let payload : MessageCreate :=
    { participantId := req.participantId,
      kind := grpcReceiveMessageKind req.kind,
      content := req.content,
      metadata := req.metadata,
      attachments := req.attachments.map (fun a =>
        { kind := grpcReceiveAttachmentKind a.kind,
          uri := a.uri,
          contentType := if a.contentType = "" then none else some a.contentType,
          metadata := a.metadata }) }
  match append_message db req.threadId payload now with
  | .error _ => (.abortedNotFound, db)
  | .ok (m, db2) => (.ok m, db2)

/-- Embedding of `repositories.get_thread`: select the thread whose id
matches `thread_id` AND whose `user_id` matches the caller; raise
`NoResultFound` when no such row exists.  An ownership mismatch and a
genuinely absent id both take the `none` branch. -/
def get_thread (db : DB) (threadId : Nat) (userId : Nat) :
    Except RepoError ThreadRow :=
  match db.threads.find? (fun t => t.id == threadId && t.userId == userId) with
  | some t => .ok t
  | none => .error .noResultFound

/-- Outcome of a dynamically-typed Python call into the repository
layer: the body runs to a value, the body raises `NoResultFound`, or
the call itself raises `TypeError` because the call site supplies no
value for a required parameter. -/
inductive PyCallResult (α : Type) where
  | ok (a : α)
  | raisedNoResultFound
  | raisedTypeError

/-- `repositories.get_thread` viewed as a Python callable: its
signature is `get_thread(session, thread_id, user_id)`, so a call site
that supplies no value for `user_id` raises `TypeError` before the body
runs. -/
def get_thread_callable (db : DB) (threadId : Nat)
    (userIdArg : Option Nat) : PyCallResult ThreadRow :=
  match userIdArg with
  | none => .raisedTypeError
  | some uid =>
    match get_thread db threadId uid with
    | .ok t => .ok t
    | .error _ => .raisedNoResultFound

/-- `repositories.create_thread` viewed as a Python callable: the
signature `create_thread(session, payload, user_id)` requires
`user_id`. -/
def create_thread_callable (db : DB) (payload : ThreadCreate)
    (userIdArg : Option Nat) (now : Nat) : PyCallResult (ThreadRow × DB) :=
  match userIdArg with
  | none => .raisedTypeError
  | some uid => .ok (create_thread db payload uid now)

/-- The REST `get_thread_endpoint` after identity resolution: `rest.py`
passes `user_id=current_user.id` to the repository. -/
def restGetThread (db : DB) (currentUserId : Nat) (threadId : Nat) :
    PyCallResult ThreadRow :=
  get_thread_callable db threadId (some currentUserId)

/-- The gRPC `ThreadService.GetThread`: `grpc.py` resolves no identity
and calls `get_thread(session, UUID(request.thread_id))`, supplying no
value for the required `user_id` parameter. -/
def grpcGetThread (db : DB) (threadId : Nat) : PyCallResult ThreadRow :=
  get_thread_callable db threadId none

/-- The REST `create_thread_endpoint` after identity resolution. -/
def restCreateThread (db : DB) (currentUserId : Nat)
    (payload : ThreadCreate) (now : Nat) : PyCallResult (ThreadRow × DB) :=
  create_thread_callable db payload (some currentUserId) now

/-- The gRPC `ThreadService.CreateThread`: `grpc.py` calls
`create_thread(session, payload)`, supplying no value for the required
`user_id` parameter. -/
def grpcCreateThread (db : DB) (payload : ThreadCreate) (now : Nat) :
    PyCallResult (ThreadRow × DB) :=
  create_thread_callable db payload none now

/-- Shallow merge of a partial attribute map into an existing one,
observed through `metaLookup`: keys of the update win, untouched keys
of the original survive, new keys are appended. -/
def mergeMeta (old updates : Meta) : Meta :=
  old.map (fun kv => (kv.1, (metaLookup updates kv.1).getD kv.2)) ++
    updates.filter (fun kv => (metaLookup old kv.1).isNone)

/-- Modelled from the spec: the repository function
`update_thread_metadata` is referenced by the test suite and by the
spec operation `UpdateThreadAttributes`, but is absent from
`repositories.py`.  Modelled after the spec: the thread is looked up
under the same owner-scoped rule as `get_thread` (failing `NotFound`
otherwise), the supplied keys are shallow-merged into the existing
attribute map, and the updated timestamp is refreshed. -/
def update_thread_metadata (db : DB) (threadId userId : Nat)
    (updates : Meta) (now : Nat) : Except RepoError (ThreadRow × DB) :=
  match db.threads.find? (fun t => t.id == threadId && t.userId == userId) with
  | none => .error .noResultFound
  | some t =>
    let t2 : ThreadRow :=
      { t with metadata := mergeMeta t.metadata updates, updatedAt := now }
    .ok (t2,
      { db with threads := db.threads.map (fun u =>
          if u.id == threadId then t2 else u) })

/-- The response body of `api/auth.py::forgot_password`, returned on
every path. -/
def forgotPasswordMessage : String :=
  "If the email exists, a password reset link has been sent"

/-- Embedding of `api/auth.py::forgot_password`: look the user up by
email; when one exists, persist a fresh reset token expiring in one
hour (the email send is fire-and-forget and cannot change the
response); in every case return the same success message. -/
def forgot_password (db : DB) (email : String) (freshToken : String)
    (now : Nat) : DB × String :=
  match db.users.find? (fun u => u.email == email) with
  | some u =>
    ({ db with
        resetTokens := db.resetTokens ++
          [{ id := db.nextId, userId := u.id, token := freshToken,
             expiresAt := now + 3600 }],
        nextId := db.nextId + 1 },
      forgotPasswordMessage)
  | none => (db, forgotPasswordMessage)

/-- Whether a byte is a UTF-8 continuation byte (0x80–0xBF). -/
def isUtf8Cont (b : Nat) : Bool :=
  0x80 ≤ b && b ≤ 0xBF

/-- Valid range of the second byte of a three-byte UTF-8 sequence,
which depends on the lead byte (excluding overlong forms and
surrogates, which a strict decoder rejects). -/
def isUtf8Second3 (lead b : Nat) : Bool :=
  if lead = 0xE0 then 0xA0 ≤ b && b ≤ 0xBF
  else if lead = 0xED then 0x80 ≤ b && b ≤ 0x9F
  else isUtf8Cont b

/-- Valid range of the second byte of a four-byte UTF-8 sequence. -/
def isUtf8Second4 (lead b : Nat) : Bool :=
  if lead = 0xF0 then 0x90 ≤ b && b ≤ 0xBF
  else if lead = 0xF4 then 0x80 ≤ b && b ≤ 0x8F
  else isUtf8Cont b

/-- One pass of Python `bytes.decode("utf-8", errors="ignore")`: decode
well-formed sequences, silently drop bytes that do not start or
complete one.  The fuel argument (instantiated with the byte count)
only bounds the recursion; every step consumes at least one byte. -/
def utf8DecodeIgnoreAux : Nat → List Nat → List Char
  | 0, _ => []
  | _ + 1, [] => []
  | fuel + 1, b :: rest =>
    if b < 0x80 then
      Char.ofNat b :: utf8DecodeIgnoreAux fuel rest
    else if 0xC2 ≤ b && b ≤ 0xDF then
      match rest with
      | b2 :: rest2 =>
        if isUtf8Cont b2 then
          Char.ofNat ((b - 0xC0) * 64 + (b2 - 0x80)) ::
            utf8DecodeIgnoreAux fuel rest2
        else utf8DecodeIgnoreAux fuel rest
      | [] => []
    else if 0xE0 ≤ b && b ≤ 0xEF then
      match rest with
      | b2 :: b3 :: rest3 =>
        if isUtf8Second3 b b2 && isUtf8Cont b3 then
          Char.ofNat ((b - 0xE0) * 4096 + (b2 - 0x80) * 64 + (b3 - 0x80)) ::
            utf8DecodeIgnoreAux fuel rest3
        else utf8DecodeIgnoreAux fuel rest
      | _ => utf8DecodeIgnoreAux fuel rest
    else if 0xF0 ≤ b && b ≤ 0xF4 then
      match rest with
      | b2 :: b3 :: b4 :: rest4 =>
        if isUtf8Second4 b b2 && isUtf8Cont b3 && isUtf8Cont b4 then
          Char.ofNat ((b - 0xF0) * 262144 + (b2 - 0x80) * 4096 +
              (b3 - 0x80) * 64 + (b4 - 0x80)) ::
            utf8DecodeIgnoreAux fuel rest4
        else utf8DecodeIgnoreAux fuel rest
      | _ => utf8DecodeIgnoreAux fuel rest
    else
      utf8DecodeIgnoreAux fuel rest

/-- Python `bytes.decode("utf-8", errors="ignore")`. -/
def utf8DecodeIgnore (bs : List Nat) : String :=
  ⟨utf8DecodeIgnoreAux bs.length bs⟩

/-- The bcrypt upstream length cap (`auth.BCRYPT_MAX_PASSWORD_LENGTH`). -/
def BCRYPT_MAX_PASSWORD_LENGTH : Nat := 72

/-- Embedding of `auth._truncate_password` on the UTF-8 encoding of the
password: keep the first 72 bytes and decode them back ignoring a
broken multi-byte tail. -/
def truncate_password (pwBytes : List Nat) : String :=
  utf8DecodeIgnore (pwBytes.take BCRYPT_MAX_PASSWORD_LENGTH)

/-- An opaque digest of the external password-hashing collaborator. -/
structure BcryptDigest where
  secret : String

/-- Modelled from the spec: the passlib bcrypt `CryptContext` is an
external collaborator consumed through the opaque contract of section
6 — hash(secret) yields a digest, and verification succeeds exactly on
the secret that was hashed. -/
def bcryptHash (s : String) : BcryptDigest := ⟨s⟩

/-- Modelled from the spec: verification side of the opaque
password-hashing contract. -/
def bcryptVerify (s : String) (d : BcryptDigest) : Bool :=
  s == d.secret

/-- Embedding of `auth.hash_password`: hash the truncated password. -/
def hash_password (pwBytes : List Nat) : BcryptDigest :=
  bcryptHash (truncate_password pwBytes)

/-- Embedding of `auth.verify_password`: verify the truncated password
against the stored digest. -/
def verify_password (pwBytes : List Nat) (d : BcryptDigest) : Bool :=
  bcryptVerify (truncate_password pwBytes) d

mutual

/-- Whether a Python value is hashable and may serve as a dict key:
lists and dicts are unhashable, a tuple is hashable exactly when all
its components are, every other value of the universe is hashable. -/
def pyHashable : PyVal → Bool
  | .pyList _ => false
  | .pyDict _ => false
  | .pyTuple xs => pyHashableList xs
  | _ => true

/-- Hashability of every element of a list. -/
def pyHashableList : List PyVal → Bool
  | [] => true
  | x :: xs => pyHashable x && pyHashableList xs

end

mutual

/-- Python equality as consulted for dict keys, on values of the
universe: `True` equals `1` and `False` equals `0` (bool is a subtype
of int with matching hashes), tuples compare componentwise, all other
values compare structurally within their own type.  The single
`sqlaMetaData` constructor stands for one `MetaData` object, so it
equals itself. -/
def pyKeyEq : PyVal → PyVal → Bool
  | .pyNone, .pyNone => true
  | .pyBool a, .pyBool b => a == b
  | .pyBool a, .pyInt n => (if a then (1 : Int) else 0) == n
  | .pyInt n, .pyBool a => n == (if a then (1 : Int) else 0)
  | .pyInt a, .pyInt b => a == b
  | .pyStr a, .pyStr b => a == b
  | .pyBytes a, .pyBytes b => a == b
  | .pyTuple as, .pyTuple bs => pyKeyEqList as bs
  | .sqlaMetaData, .sqlaMetaData => true
  | _, _ => false

/-- Componentwise Python equality of two lists. -/
def pyKeyEqList : List PyVal → List PyVal → Bool
  | [], [] => true
  | a :: as, b :: bs => pyKeyEq a b && pyKeyEqList as bs
  | _, _ => false

end

/-- Python dict insertion: when an equal key exists, the original key
object is kept and its value replaced; a new key is appended in
insertion order. -/
def dictInsert (d : PyDict) (k v : PyVal) : PyDict :=
  if (d.find? (fun kv => pyKeyEq kv.1 k)).isSome then
    d.map (fun kv => if pyKeyEq kv.1 k then (kv.1, v) else kv)
  else d ++ [(k, v)]

/-- One element of the sequence given to `dict(...)`, as Python accepts
it: any iterable of exactly two items whose first item is hashable — a
2-tuple or 2-list (with hashable first component), a 2-character
string (its two characters become key and value), two bytes (two
ints), or a 2-entry dict (iteration yields its two keys).  Everything
else raises TypeError or ValueError. -/
def toPairElem : PyVal → Option (PyVal × PyVal)
  | .pyTuple [k, v] => if pyHashable k then some (k, v) else none
  | .pyList [k, v] => if pyHashable k then some (k, v) else none
  | .pyStr s =>
    match s.toList with
    | [c1, c2] => some (.pyStr ⟨[c1]⟩, .pyStr ⟨[c2]⟩)
    | _ => none
  | .pyBytes [b1, b2] => some (.pyInt b1, .pyInt b2)
  | .pyDict [e1, e2] =>
    if pyHashable e1.1 then some (e1.1, e2.1) else none
  | _ => none

/-- The key-value pairs Python reads off a sequence handed to
`dict(...)`: the first bad element fails the whole conversion. -/
def toPairs : List PyVal → Option (List (PyVal × PyVal))
  | [] => some []
  | x :: xs =>
    match toPairElem x, toPairs xs with
    | some p, some ps => some (p :: ps)
    | _, _ => none

/-- Build the dict from the extracted pairs, later pairs overriding
earlier equal keys. -/
def dictFromPairs (ps : List (PyVal × PyVal)) : PyDict :=
  ps.foldl (fun d kv => dictInsert d kv.1 kv.2) []

/-- Python `dict(obj)` over a sequence of the universe: `none` models
the TypeError or ValueError that both normalizers catch. -/
def pyDictConvert (xs : List PyVal) : Option PyDict :=
  (toPairs xs).map dictFromPairs

/-- Whether every key of a dict is a string. -/
def isStringKeyedDict (d : PyDict) : Bool :=
  d.all (fun kv => match kv.1 with | .pyStr _ => true | _ => false)

/-- Embedding of `rest._normalize_metadata`, branch for branch: `None`
yields an empty dict; a dict is returned unchanged; a SQLAlchemy
`MetaData` object yields an empty dict; an iterable other than
`str`/`bytes` is converted with `dict(...)` where a conversion error is
caught and yields an empty dict; everything else falls through to an
empty dict. -/
def normalize_metadata_rest (v : PyVal) : PyDict :=
  match v with
  | .pyNone => []
  | .pyDict d => d
  | .sqlaMetaData => []
  | .pyStr _ => []
  | .pyBytes _ => []
  | .pyList xs => (pyDictConvert xs).getD []
  | .pyTuple xs => (pyDictConvert xs).getD []
  | .pyBool _ => []
  | .pyInt _ => []

/-- Embedding of `schemas.MetadataMixin.normalize_metadata`: same
branches in a different order (`MetaData` first, then `None`, dict,
items-bearing objects, other iterables, fallback empty dict). -/
def normalize_metadata_schemas (v : PyVal) : PyDict :=
  match v with
  | .sqlaMetaData => []
  | .pyNone => []
  | .pyDict d => d
  | .pyStr _ => []
  | .pyBytes _ => []
  | .pyList xs => (pyDictConvert xs).getD []
  | .pyTuple xs => (pyDictConvert xs).getD []
  | .pyBool _ => []
  | .pyInt _ => []

/-- A small concrete database shared by witnesses and counterexamples:
one user (id 1) owning one thread (id 10). -/
def sampleDb : DB :=
  { users := [{ id := 1, email := "a@example.com",
                passwordHash := some "h", name := none }],
    threads := [{ id := 10, userId := 1, title := none, summary := none,
                  status := .opened, metadata := [], createdAt := 0,
                  updatedAt := 0 }],
    participants := [], messages := [], attachments := [],
    resetTokens := [], nextId := 11 }

/-- A concrete database whose single thread carries the attribute map
of the shallow-merge example in the spec. -/
def sampleDbMeta : DB :=
  { users := [{ id := 1, email := "a@example.com",
                passwordHash := some "h", name := none }],
    threads := [{ id := 10, userId := 1, title := none, summary := none,
                  status := .opened,
                  metadata := [("a", .pyInt 1), ("b", .pyInt 2)],
                  createdAt := 0, updatedAt := 0 }],
    participants := [], messages := [], attachments := [],
    resetTokens := [], nextId := 11 }

/-- The attachment rows built for one message keep its id. -/
theorem attachmentRows_messageId (l : List AttachmentCreate) :
    ∀ i mid now, ∀ a ∈ attachmentRows i mid now l, a.messageId = mid := by
  induction l with
  | nil => intro i mid now a ha; simp [attachmentRows] at ha
  | cons x xs ih =>
    intro i mid now a ha
    simp only [attachmentRows, List.mem_cons] at ha
    rcases ha with h | h
    · rw [h]
    · exact ih (i + 1) mid now a h

/-- One attachment row is built per payload attachment. -/
theorem attachmentRows_length (l : List AttachmentCreate) :
    ∀ i mid now, (attachmentRows i mid now l).length = l.length := by
  induction l with
  | nil => intro i mid now; rfl
  | cons x xs ih =>
    intro i mid now
    simp [attachmentRows, ih (i + 1) mid now]

/-- The participant rows built for one thread keep its id. -/
theorem participantRows_threadId (l : List ParticipantCreate) :
    ∀ i tid now, ∀ q ∈ participantRows i tid now l, q.threadId = tid := by
  induction l with
  | nil => intro i tid now q hq; simp [participantRows] at hq
  | cons x xs ih =>
    intro i tid now q hq
    simp only [participantRows, List.mem_cons] at hq
    rcases hq with h | h
    · rw [h]
    · exact ih (i + 1) tid now q h

/-- One participant row is built per payload participant. -/
theorem participantRows_length (l : List ParticipantCreate) :
    ∀ i tid now, (participantRows i tid now l).length = l.length := by
  induction l with
  | nil => intro i tid now; rfl
  | cons x xs ih =>
    intro i tid now
    simp [participantRows, ih (i + 1) tid now]

/-- Successful validation of an attachment list preserves its length. -/
theorem validateAttachments_length (l : List RawAttachment) :
    ∀ vs, validateAttachments l = .ok vs → vs.length = l.length := by
  induction l with
  | nil =>
    intro vs h
    simp only [validateAttachments] at h
    cases h
    rfl
  | cons x xs ih =>
    intro vs h
    simp only [validateAttachments] at h
    cases hx : validateAttachment x with
    | error e => rw [hx] at h; cases h
    | ok v =>
      rw [hx] at h
      cases hxs : validateAttachments xs with
      | error e => rw [hxs] at h; cases h
      | ok ws =>
        rw [hxs] at h
        cases h
        simp [ih ws hxs]

/-- A validated message has one attachment per raw attachment, and its
content is the raw content. -/
theorem validateMessage_ok (raw : RawMessage) :
    ∀ p, validateMessage raw = .ok p →
      p.attachments.length = raw.attachments.length ∧
      raw.content = some p.content := by
  intro p h
  simp only [validateMessage] at h
  cases hc : raw.content with
  | none => rw [hc] at h; cases hA : validateAttachments raw.attachments <;>
      rw [hA] at h <;> cases h
  | some c =>
    rw [hc] at h
    cases hA : validateAttachments raw.attachments with
    | error e => rw [hA] at h; cases h
    | ok atts =>
      rw [hA] at h
      cases h
      exact ⟨validateAttachments_length raw.attachments atts hA, rfl⟩

/-- Lookup distributes over list append: the left list is consulted
first. -/
theorem metaLookup_append (A B : Meta) (k : String) :
    metaLookup (A ++ B) k =
      match metaLookup A k with
      | some v => some v
      | none => metaLookup B k := by
  induction A with
  | nil => simp [metaLookup]
  | cons kv rest ih =>
    cases hk : (kv.1 == k) with
    | true => simp [metaLookup, List.find?_cons, hk]
    | false => simpa [metaLookup, List.find?_cons, hk] using ih

/-- Lookup in the overridden copy of the original map: every original
key survives, with its value replaced when the update map has it. -/
theorem metaLookup_map_override (old new : Meta) (k : String) :
    metaLookup
        (old.map (fun kv => (kv.1, (metaLookup new kv.1).getD kv.2))) k =
      (metaLookup old k).map (fun v => (metaLookup new k).getD v) := by
  induction old with
  | nil => rfl
  | cons kv rest ih =>
    cases hk : (kv.1 == k) with
    | true =>
      have hk1 : kv.1 = k := by simpa using hk
      simp [metaLookup, List.find?_cons, hk, hk1]
    | false =>
      simpa [metaLookup, List.find?_cons, hk] using ih

/-- When the original map misses a key, filtering the update map to its
genuinely new keys does not change what lookup sees at that key. -/
theorem metaLookup_filter_new (old new : Meta) (k : String)
    (h : metaLookup old k = none) :
    metaLookup
        (new.filter (fun kv => (metaLookup old kv.1).isNone)) k =
      metaLookup new k := by
  induction new with
  | nil => rfl
  | cons kv rest ih =>
    rw [List.filter_cons]
    cases hkeep : (metaLookup old kv.1).isNone with
    | false =>
      have hk : (kv.1 == k) = false := by
        cases hkk : (kv.1 == k) with
        | true =>
          have hk1 : kv.1 = k := by simpa using hkk
          rw [hk1, h] at hkeep
          cases hkeep
        | false => rfl
      rw [if_neg (by simp [hkeep]), ih]
      simp [metaLookup, List.find?_cons, hk]
    | true =>
      rw [if_pos (by simp [hkeep])]
      cases hk : (kv.1 == k) with
      | true => simp [metaLookup, List.find?_cons, hk]
      | false =>
        simp only [metaLookup, List.find?_cons, hk]
        exact ih

/-- When the original map has a key, no entry for that key survives the
new-keys filter of the update map. -/
theorem metaLookup_filter_drop (old new : Meta) (k : String)
    (h : (metaLookup old k).isNone = false) :
    metaLookup
        (new.filter (fun kv => (metaLookup old kv.1).isNone)) k = none := by
  induction new with
  | nil => rfl
  | cons kv rest ih =>
    rw [List.filter_cons]
    cases hkeep : (metaLookup old kv.1).isNone with
    | false =>
      rw [if_neg (by simp [hkeep])]
      exact ih
    | true =>
      have hk : (kv.1 == k) = false := by
        cases hkk : (kv.1 == k) with
        | true =>
          have hk1 : kv.1 = k := by simpa using hkk
          rw [hk1] at hkeep
          rw [hkeep] at h
          cases h
        | false => rfl
      rw [if_pos (by simp [hkeep])]
      simp only [metaLookup, List.find?_cons, hk]
      exact ih

/-- The observable content of a shallow merge: a key of the update map
reads its updated value, every other key reads its original value. -/
theorem metaLookup_mergeMeta (old new : Meta) (k : String) :
    metaLookup (mergeMeta old new) k =
      match metaLookup new k with
      | some v => some v
      | none => metaLookup old k := by
  unfold mergeMeta
  rw [metaLookup_append, metaLookup_map_override]
  cases ho : metaLookup old k with
  | some v => cases hn : metaLookup new k <;> simp [hn]
  | none =>
    cases hn : metaLookup new k with
    | some w =>
      simpa [metaLookup_filter_new old new k ho] using hn
    | none =>
      simpa [metaLookup_filter_new old new k ho] using hn

/-- C1: owner isolation of thread reads.  For every thread `t` owned by
owner `a` and every owner `b ≠ a` (under the primary-key invariant that
all rows sharing the id of `t` have its owner), `get_thread` for `b` at
the id of `t` fails with `NoResultFound`; and for an id that matches no
row at all, `get_thread` also fails with `NoResultFound`.  The two
outcomes are the same value, so a caller cannot distinguish an ownership
mismatch from nonexistence. -/
theorem get_thread_owner_isolation (db : DB) (t : ThreadRow) (a b : Nat)
    (hmem : t ∈ db.threads) (howner : t.userId = a) (hne : b ≠ a)
    (hpk : ∀ u ∈ db.threads, u.id = t.id → u.userId = t.userId)
    (missingId : Nat) (hmissing : ∀ u ∈ db.threads, u.id ≠ missingId) :
    get_thread db t.id b = .error .noResultFound ∧
    get_thread db missingId b = .error .noResultFound ∧
    get_thread db t.id b = get_thread db missingId b := by
  have hfind1 : db.threads.find? (fun u => u.id == t.id && u.userId == b) = none := by
    apply List.find?_eq_none.mpr
    intro u hu
    simp only [Bool.and_eq_true, beq_iff_eq, not_and]
    intro hid
    rw [hpk u hu hid, howner]
    exact fun h => hne h.symm
  have hfind2 : db.threads.find? (fun u => u.id == missingId && u.userId == b) = none := by
    apply List.find?_eq_none.mpr
    intro u hu
    simp only [Bool.and_eq_true, beq_iff_eq, not_and]
    intro hid
    exact absurd hid (hmissing u hu)
  refine ⟨?_, ?_, ?_⟩ <;> simp [get_thread, hfind1, hfind2]

/-- C1 witness: a concrete database with one thread (id 10) owned by
owner 1; owner 2 reading id 10 and anyone reading absent id 99 both get
`NoResultFound`, and the two outcomes are equal. -/
theorem get_thread_owner_isolation_witness :
    get_thread
        { users := [], threads := [⟨10, 1, none, none, .opened, [], 0, 0⟩],
          participants := [], messages := [], attachments := [],
          resetTokens := [], nextId := 11 } 10 2 = .error .noResultFound ∧
    get_thread
        { users := [], threads := [⟨10, 1, none, none, .opened, [], 0, 0⟩],
          participants := [], messages := [], attachments := [],
          resetTokens := [], nextId := 11 } 99 2 = .error .noResultFound ∧
    get_thread
        { users := [], threads := [⟨10, 1, none, none, .opened, [], 0, 0⟩],
          participants := [], messages := [], attachments := [],
          resetTokens := [], nextId := 11 } 10 2 =
      get_thread
        { users := [], threads := [⟨10, 1, none, none, .opened, [], 0, 0⟩],
          participants := [], messages := [], attachments := [],
          resetTokens := [], nextId := 11 } 99 2 := by
  exact get_thread_owner_isolation
    { users := [], threads := [⟨10, 1, none, none, .opened, [], 0, 0⟩],
      participants := [], messages := [], attachments := [],
      resetTokens := [], nextId := 11 }
    ⟨10, 1, none, none, .opened, [], 0, 0⟩ 1 2
    (by simp) rfl (by decide)
    (by intro u hu hid; simp at hu; simp [hu])
    99 (by intro u hu; simp at hu; simp [hu])

/-- C3: through the gRPC adapter, `AppendMessage` performs no identity
resolution and no ownership check.  `grpcAppendMessage` takes no
credential or owner argument at all, and for every existing thread —
whatever owner the thread belongs to — the call succeeds and persists
the message to that thread. -/
theorem grpc_append_message_ignores_ownership (db : DB)
    (req : GrpcAppendMessageRequest) (now : Nat) (t : ThreadRow) (owner : Nat)
    (hmem : t ∈ db.threads) (hid : t.id = req.threadId)
    (howner : t.userId = owner) :
    ∃ m, (grpcAppendMessage db req now).1 = .ok m ∧
      (grpcAppendMessage db req now).2.messages = db.messages ++ [m] ∧
      m.threadId = req.threadId ∧ m.content = req.content := by
  cases hfind : db.threads.find? (fun u => u.id == req.threadId) with
  | none =>
    exact absurd (by simp [hid] : (fun u => u.id == req.threadId) t = true)
      (by simpa using List.find?_eq_none.mp hfind t hmem)
  | some u =>
    refine ⟨{ id := db.nextId, threadId := req.threadId,
              participantId := req.participantId,
              kind := grpcReceiveMessageKind req.kind,
              content := req.content, metadata := req.metadata,
              createdAt := now }, ?_, ?_, rfl, rfl⟩ <;>
      simp [grpcAppendMessage, append_message, hfind]

/-- C3 witness: a gRPC append to thread 10 of `sampleDb` (owned by
owner 1, while no credential is presented at all) succeeds and appends
the message. -/
theorem grpc_append_message_ignores_ownership_witness :
    ∃ m,
      (grpcAppendMessage sampleDb { threadId := 10, content := "hi" } 5).1 =
        .ok m ∧
      (grpcAppendMessage sampleDb
          { threadId := 10, content := "hi" } 5).2.messages =
        sampleDb.messages ++ [m] ∧
      m.threadId = 10 ∧ m.content = "hi" :=
  grpc_append_message_ignores_ownership sampleDb
    { threadId := 10, content := "hi" } 5
    { id := 10, userId := 1, title := none, summary := none,
      status := .opened, metadata := [], createdAt := 0, updatedAt := 0 }
    1 (by simp [sampleDb]) rfl rfl

/-- C4: multi-row write atomicity.  A failed append-message call (at
validation or at the thread-existence check) leaves the database
exactly as it was — zero rows from the call are visible; a successful
append makes the message row and one attachment row per supplied raw
attachment visible together; a create-thread call makes the thread row
and one participant row per supplied participant visible together. -/
theorem multi_row_write_atomicity (db : DB) (threadId now : Nat)
    (raw : RawMessage) (payload : ThreadCreate) (userId : Nat) :
    (∀ e, (appendMessageCall db threadId raw now).1 = .error e →
        (appendMessageCall db threadId raw now).2 = db) ∧
    (∀ m db2, appendMessageCall db threadId raw now = (.ok m, db2) →
        db2.messages = db.messages ++ [m] ∧
        ∃ newAtts, db2.attachments = db.attachments ++ newAtts ∧
          newAtts.length = raw.attachments.length ∧
          ∀ a ∈ newAtts, a.messageId = m.id) ∧
    (∀ t db3, create_thread db payload userId now = (t, db3) →
        db3.threads = db.threads ++ [t] ∧
        ∃ parts, db3.participants = db.participants ++ parts ∧
          parts.length = payload.participants.length ∧
          ∀ q ∈ parts, q.threadId = t.id) := by
  refine ⟨?_, ?_, ?_⟩
  · intro e h
    cases hv : validateMessage raw with
    | error ve => simp [appendMessageCall, hv]
    | ok p =>
      cases hr : append_message db threadId p now with
      | error re => simp [appendMessageCall, hv, hr]
      | ok pair =>
        exfalso
        rw [show (appendMessageCall db threadId raw now) = (.ok pair.1, pair.2) by
          simp [appendMessageCall, hv, hr]] at h
        cases h
  · intro m db2 h
    cases hv : validateMessage raw with
    | error ve => simp [appendMessageCall, hv] at h
    | ok p =>
      cases hfind : db.threads.find? (fun u => u.id == threadId) with
      | none => simp [appendMessageCall, hv, append_message, hfind] at h
      | some u =>
        have hmsg : appendMessageCall db threadId raw now =
            (.ok { id := db.nextId, threadId := threadId,
                   participantId := p.participantId, kind := p.kind,
                   content := p.content, metadata := p.metadata,
                   createdAt := now },
             { db with
                 messages := db.messages ++
                   [{ id := db.nextId, threadId := threadId,
                      participantId := p.participantId, kind := p.kind,
                      content := p.content, metadata := p.metadata,
                      createdAt := now }],
                 attachments := db.attachments ++
                   attachmentRows (db.nextId + 1) db.nextId now p.attachments,
                 nextId := db.nextId + 1 + p.attachments.length }) := by
          simp [appendMessageCall, hv, append_message, hfind]
        rw [hmsg] at h
        obtain ⟨hm, hdb⟩ := Prod.mk.injEq .. ▸ h
        cases hm
        refine ⟨by rw [← hdb], ?_⟩
        refine ⟨attachmentRows (db.nextId + 1) db.nextId now p.attachments,
          by rw [← hdb], ?_, ?_⟩
        · rw [attachmentRows_length,
            (validateMessage_ok raw p hv).1]
        · exact fun a ha => attachmentRows_messageId p.attachments
            (db.nextId + 1) db.nextId now a ha
  · intro t db3 h
    simp only [create_thread, Prod.mk.injEq] at h
    obtain ⟨ht, hdb⟩ := h
    subst ht
    subst hdb
    exact ⟨rfl,
      participantRows (db.nextId + 1) db.nextId now payload.participants,
      rfl, participantRows_length .., fun q hq =>
        participantRows_threadId payload.participants
          (db.nextId + 1) db.nextId now q hq⟩

/-- C4 witness: appending to thread 10 of `sampleDb` a message with two
attachments makes the message and both attachment rows visible; the
same call with an invalid nested attachment (a missing uri) leaves the
database unchanged. -/
theorem multi_row_write_atomicity_witness :
    ((appendMessageCall sampleDb 10
        { content := some "hi",
          attachments := [{ uri := some "s3://a" }, { uri := none }] } 5).2 =
      sampleDb) ∧
    (∃ m db2, appendMessageCall sampleDb 10
        { content := some "hi",
          attachments := [{ uri := some "s3://a" }, { uri := some "s3://b" }] }
        5 = (.ok m, db2) ∧
      db2.messages = sampleDb.messages ++ [m] ∧
      ∃ newAtts, db2.attachments = sampleDb.attachments ++ newAtts ∧
        newAtts.length = 2 ∧ ∀ a ∈ newAtts, a.messageId = m.id) := by
  constructor
  · exact (multi_row_write_atomicity sampleDb 10 5
      { content := some "hi",
        attachments := [{ uri := some "s3://a" }, { uri := none }] }
      {} 1).1 (.invalidPayload (.missingRequiredField "uri")) (by rfl)
  · obtain ⟨m, db2, hrun⟩ :
        ∃ m db2, appendMessageCall sampleDb 10
          { content := some "hi",
            attachments :=
              [{ uri := some "s3://a" }, { uri := some "s3://b" }] } 5 =
          (.ok m, db2) := ⟨_, _, rfl⟩
    refine ⟨m, db2, hrun, ?_⟩
    have := (multi_row_write_atomicity sampleDb 10 5
      { content := some "hi",
        attachments := [{ uri := some "s3://a" }, { uri := some "s3://b" }] }
      {} 1).2.1 m db2 hrun
    exact this

/-- C5 counterexample: a wire enum value outside the fixed table is
silently mapped by the gRPC adapter to a normal enum value on
reception — participant role 99 (and the wire unspecified value 0)
become `user`, message kind 99 becomes `text`, attachment kind 99
becomes `file` — refuting the claim that such values map to an
unspecified sentinel and are never mapped to user, text or file. -/
theorem grpc_unmapped_wire_value_defaults_to_normal :
    grpcReceiveParticipantRole 99 = .user ∧
    grpcReceiveParticipantRole PARTICIPANT_ROLE_UNSPECIFIED = .user ∧
    grpcReceiveMessageKind 99 = .text ∧
    grpcReceiveAttachmentKind 99 = .file := by
  decide

/-- C5 (amended): on emission the conversion tables are exhaustive over
the closed domain enums and never produce the wire unspecified value,
with the unspecified sentinel only as an unreachable fallback; on
reception, a wire value outside the table is silently defaulted to a
normal value — participant role to `user`, message kind to `text`,
attachment kind to `file` — and an unmapped status filter is treated as
no filter. -/
theorem grpc_enum_mapping (n : Nat) :
    (pbToParticipantRole n = none → grpcReceiveParticipantRole n = .user) ∧
    (pbToMessageKind n = none → grpcReceiveMessageKind n = .text) ∧
    (pbToAttachmentKind n = none → grpcReceiveAttachmentKind n = .file) ∧
    (pbToThreadStatus n = none → grpcStatusFilter n = none) ∧
    (∀ s : ThreadStatus, threadStatusToPb s ≠ THREAD_STATUS_UNSPECIFIED) ∧
    (∀ r : ParticipantRole, participantRoleToPb r ≠ PARTICIPANT_ROLE_UNSPECIFIED) ∧
    (∀ k : MessageKind, messageKindToPb k ≠ MESSAGE_KIND_UNSPECIFIED) ∧
    (∀ k : AttachmentKind, attachmentKindToPb k ≠ ATTACHMENT_KIND_UNSPECIFIED) := by
  refine ⟨?_, ?_, ?_, ?_, ?_, ?_, ?_, ?_⟩
  · intro h; simp [grpcReceiveParticipantRole, h]
  · intro h; simp [grpcReceiveMessageKind, h]
  · intro h; simp [grpcReceiveAttachmentKind, h]
  · intro h; simp [grpcStatusFilter, h]
  · intro s; cases s <;> decide
  · intro r; cases r <;> decide
  · intro k; cases k <;> decide
  · intro k; cases k <;> decide

/-- C5 witness: wire value 99 is outside every table; the amended
theorem applied there yields the normal-value defaults. -/
theorem grpc_enum_mapping_witness :
    pbToParticipantRole 99 = none ∧ grpcReceiveParticipantRole 99 = .user ∧
    pbToThreadStatus 99 = none ∧ grpcStatusFilter 99 = none :=
  ⟨by decide, (grpc_enum_mapping 99).1 (by decide), by decide,
    (grpc_enum_mapping 99).2.2.2.1 (by decide)⟩

/-- C7 counterexample: an append-message call whose content is the
empty string is accepted — against `sampleDb` (no messages) the call
returns ok and one message with empty content becomes visible — so an
empty-content call does create a message. -/
theorem append_message_accepts_empty_content :
    (appendMessageCall sampleDb 10 { content := some "" } 5).1 =
      .ok { id := 11, threadId := 10, participantId := none, kind := .text,
            content := "", metadata := [], createdAt := 5 } ∧
    ((appendMessageCall sampleDb 10 { content := some "" } 5).2).messages.length =
      sampleDb.messages.length + 1 := by
  constructor <;> rfl

/-- C7 (amended): message content is required but may be empty.  A
payload with no content field is rejected by validation and creates
nothing (the state is returned unchanged); an accepted append persists
exactly the supplied content string, the empty string included. -/
theorem append_message_content_required (db : DB) (threadId now : Nat)
    (raw : RawMessage) :
    (raw.content = none →
        appendMessageCall db threadId raw now =
          (.error (.invalidPayload (.missingRequiredField "content")), db)) ∧
    (∀ c m db2, raw.content = some c →
        appendMessageCall db threadId raw now = (.ok m, db2) →
        m.content = c) := by
  constructor
  · intro h
    cases hA : validateAttachments raw.attachments <;>
      simp [appendMessageCall, validateMessage, h, hA]
  · intro c m db2 hc h
    cases hv : validateMessage raw with
    | error ve => simp [appendMessageCall, hv] at h
    | ok p =>
      have hcp : raw.content = some p.content := (validateMessage_ok raw p hv).2
      rw [hc] at hcp
      injection hcp with hcc
      subst hcc
      cases hfind : db.threads.find? (fun u => u.id == threadId) with
      | none => simp [appendMessageCall, hv, append_message, hfind] at h
      | some u =>
        simp only [appendMessageCall, hv, append_message, hfind,
          Prod.mk.injEq, Except.ok.injEq] at h
        obtain ⟨hm, -⟩ := h
        rw [← hm]

/-- C7 amended witness: against `sampleDb`, a payload with no content
is rejected leaving the state unchanged, and an accepted payload with
content "hi" persists exactly "hi". -/
theorem append_message_content_required_witness :
    appendMessageCall sampleDb 10 { content := none } 5 =
      (.error (.invalidPayload (.missingRequiredField "content")), sampleDb) ∧
    ∀ m db2, appendMessageCall sampleDb 10 { content := some "hi" } 5 =
      (.ok m, db2) → m.content = "hi" :=
  ⟨(append_message_content_required sampleDb 10 5 { content := none }).1 rfl,
    fun m db2 h =>
      (append_message_content_required sampleDb 10 5
        { content := some "hi" }).2 "hi" m db2 rfl h⟩

/-- C2: the adapters are not equivalent — the gRPC adapter is stale
with respect to the repository signatures.  At the failing input
(thread 10 of `sampleDb`, owned by user 1): the REST path, resolving
the identity of user 1, returns the thread; the gRPC path supplies no
value for the required `user_id` parameter of `get_thread` and raises
`TypeError` (surfacing as an internal error), a different outcome; the
gRPC create path fails the same way. -/
theorem adapter_divergence_get_thread :
    restGetThread sampleDb 1 10 =
      .ok { id := 10, userId := 1, title := none, summary := none,
            status := .opened, metadata := [], createdAt := 0,
            updatedAt := 0 } ∧
    grpcGetThread sampleDb 10 = .raisedTypeError ∧
    grpcGetThread sampleDb 10 ≠ restGetThread sampleDb 1 10 ∧
    grpcCreateThread sampleDb {} 5 = .raisedTypeError := by
  refine ⟨rfl, rfl, ?_, rfl⟩
  intro h
  exact PyCallResult.noConfusion h

/-- C6: `UpdateThreadAttributes` is a shallow merge.  For every thread
the caller owns (the owner-scoped lookup finds it), the update
succeeds, refreshes the updated timestamp, and the resulting attribute
map reads back every supplied key at its new value and every untouched
key at its original value — new keys added, existing keys overwritten,
untouched keys preserved. -/
theorem update_thread_attributes_shallow_merge (db : DB)
    (threadId userId now : Nat) (updates : Meta) (t : ThreadRow)
    (hfind : db.threads.find?
        (fun u => u.id == threadId && u.userId == userId) = some t) :
    ∃ t2 db2,
      update_thread_metadata db threadId userId updates now =
        .ok (t2, db2) ∧
      t2.updatedAt = now ∧
      (∀ k v, metaLookup updates k = some v →
          metaLookup t2.metadata k = some v) ∧
      (∀ k, metaLookup updates k = none →
          metaLookup t2.metadata k = metaLookup t.metadata k) := by
  refine ⟨{ t with
      metadata := mergeMeta t.metadata updates
      updatedAt := now },
    { db with
      threads := db.threads.map (fun u =>
        if u.id == threadId then
          { t with
            metadata := mergeMeta t.metadata updates
            updatedAt := now }
        else u) },
    by simp [update_thread_metadata, hfind], rfl, ?_, ?_⟩
  · intro k v h
    show metaLookup (mergeMeta t.metadata updates) k = some v
    rw [metaLookup_mergeMeta, h]
  · intro k h
    show metaLookup (mergeMeta t.metadata updates) k =
      metaLookup t.metadata k
    rw [metaLookup_mergeMeta, h]

/-- C6 witness: the example of the spec.  Merging the update b=3, c=4
into the existing map a=1, b=2 yields exactly a=1, b=3, c=4, and the
modelled update on `sampleDbMeta` succeeds with those lookups and the
refreshed timestamp. -/
theorem update_thread_attributes_shallow_merge_witness :
    mergeMeta [("a", .pyInt 1), ("b", .pyInt 2)]
        [("b", .pyInt 3), ("c", .pyInt 4)] =
      [("a", .pyInt 1), ("b", .pyInt 3), ("c", .pyInt 4)] ∧
    ∃ t2 db2,
      update_thread_metadata sampleDbMeta 10 1
          [("b", .pyInt 3), ("c", .pyInt 4)] 7 = .ok (t2, db2) ∧
      t2.updatedAt = 7 ∧
      (∀ k v, metaLookup [("b", .pyInt 3), ("c", .pyInt 4)] k = some v →
          metaLookup t2.metadata k = some v) ∧
      (∀ k, metaLookup [("b", .pyInt 3), ("c", .pyInt 4)] k = none →
          metaLookup t2.metadata k =
            metaLookup [("a", .pyInt 1), ("b", .pyInt 2)] k) :=
  ⟨rfl,
    update_thread_attributes_shallow_merge sampleDbMeta 10 1 7
      [("b", .pyInt 3), ("c", .pyInt 4)]
      { id := 10, userId := 1, title := none, summary := none,
        status := .opened, metadata := [("a", .pyInt 1), ("b", .pyInt 2)],
        createdAt := 0, updatedAt := 0 }
      rfl⟩

/-- C8: anti-enumeration on password-reset issuance.  For every
database state, every email (existing or not), every fresh token and
every instant, `forgot_password` returns the one fixed success
message; in particular the response of any two calls coincides, so the
externally observable result carries no information about whether the
email exists. -/
theorem forgot_password_anti_enumeration (db : DB)
    (email freshToken : String) (now : Nat) (db2 : DB)
    (email2 freshToken2 : String) (now2 : Nat) :
    (forgot_password db email freshToken now).2 = forgotPasswordMessage ∧
    (forgot_password db email freshToken now).2 =
      (forgot_password db2 email2 freshToken2 now2).2 := by
  have hconst : ∀ (d : DB) (e t : String) (n : Nat),
      (forgot_password d e t n).2 = forgotPasswordMessage := by
    intro d e t n
    unfold forgot_password
    cases d.users.find? (fun u => u.email == e) <;> rfl
  exact ⟨hconst db email freshToken now,
    by rw [hconst, hconst]⟩

/-- C9: password verification is truncation-insensitive past 72 bytes.
For any two passwords whose UTF-8 encodings agree on their first 72
bytes, verifying the second against the hash of the first succeeds:
both `hash_password` and `verify_password` factor through
`truncate_password`, which only looks at the first 72 bytes. -/
theorem verify_password_truncation_insensitive (p1 p2 : List Nat)
    (h : p1.take 72 = p2.take 72) :
    verify_password p2 (hash_password p1) = true := by
  unfold verify_password hash_password bcryptVerify bcryptHash
    truncate_password BCRYPT_MAX_PASSWORD_LENGTH
  rw [h]
  simp

/-- C9 witness: two distinct 73-byte passwords that differ only in the
73rd byte verify against each other. -/
theorem verify_password_truncation_insensitive_witness :
    (List.replicate 72 97 ++ [98] : List Nat) ≠
      List.replicate 72 97 ++ [99] ∧
    verify_password (List.replicate 72 97 ++ [99])
      (hash_password (List.replicate 72 97 ++ [98])) = true :=
  ⟨by decide,
    verify_password_truncation_insensitive
      (List.replicate 72 97 ++ [98]) (List.replicate 72 97 ++ [99])
      (by decide)⟩

/-- C10 counterexample: the normalizers do not always return a
string-keyed dict, and convertibility is broader than key-value
tuples.  The sequence containing the pair (1, 2) is happily converted
by `dict(...)`, so `_normalize_metadata` returns the non-empty dict
with the integer key 1 — not a string-keyed dict and not the empty
dict; and a two-character string element is itself treated as a
key-value pair, so the sequence containing "ab" becomes the dict
mapping "a" to "b" rather than the empty dict. -/
theorem normalize_metadata_not_string_keyed :
    normalize_metadata_rest (.pyList [.pyTuple [.pyInt 1, .pyInt 2]]) =
      [(.pyInt 1, .pyInt 2)] ∧
    isStringKeyedDict
        (normalize_metadata_rest (.pyList [.pyTuple [.pyInt 1, .pyInt 2]])) =
      false ∧
    normalize_metadata_rest (.pyList [.pyStr "ab"]) =
      [(.pyStr "a", .pyStr "b")] := by
  refine ⟨rfl, rfl, rfl⟩

/-- C10 (amended): metadata normalization is total and dict-preserving,
but not string-keyed.  Both normalizers are total functions of the
embedded value universe (the conversion errors Python can raise here
are caught); they are the identity on dict inputs, string-keyed or
not; they return the empty dict for None, for a SQLAlchemy MetaData
object, for strings, bytes, numbers, booleans, and for any sequence
that `dict(...)` cannot convert; a convertible sequence becomes
exactly the dict Python builds from it, whose keys need not be
strings; and the schema-level validator agrees with the REST helper on
every input. -/
theorem normalize_metadata_total_dict_preserving :
    (∀ d : PyDict, normalize_metadata_rest (.pyDict d) = d) ∧
    normalize_metadata_rest .pyNone = [] ∧
    normalize_metadata_rest .sqlaMetaData = [] ∧
    (∀ s, normalize_metadata_rest (.pyStr s) = []) ∧
    (∀ bs, normalize_metadata_rest (.pyBytes bs) = []) ∧
    (∀ n : Int, normalize_metadata_rest (.pyInt n) = []) ∧
    (∀ b, normalize_metadata_rest (.pyBool b) = []) ∧
    (∀ xs, pyDictConvert xs = none →
        normalize_metadata_rest (.pyList xs) = [] ∧
        normalize_metadata_rest (.pyTuple xs) = []) ∧
    (∀ xs ps, pyDictConvert xs = some ps →
        normalize_metadata_rest (.pyList xs) = ps) ∧
    (∀ v, normalize_metadata_schemas v = normalize_metadata_rest v) := by
  refine ⟨fun d => rfl, rfl, rfl, fun s => rfl, fun bs => rfl,
    fun n => rfl, fun b => rfl, ?_, ?_, ?_⟩
  · intro xs h
    constructor <;> simp [normalize_metadata_rest, h]
  · intro xs ps h
    simp [normalize_metadata_rest, h]
  · intro v
    cases v <;> rfl

/-- C10 witness: the sequence containing the bare number 3 cannot be
converted to a dict (an int is not iterable) and normalizes to the
empty dict; the sequence of one ("k", 5) pair converts and normalizes
to that dict. -/
theorem normalize_metadata_total_dict_preserving_witness :
    (normalize_metadata_rest (.pyList [.pyInt 3]) = [] ∧
      normalize_metadata_rest (.pyTuple [.pyInt 3]) = []) ∧
    normalize_metadata_rest
        (.pyList [.pyTuple [.pyStr "k", .pyInt 5]]) =
      [(.pyStr "k", .pyInt 5)] :=
  ⟨normalize_metadata_total_dict_preserving.2.2.2.2.2.2.2.1 [.pyInt 3] rfl,
    normalize_metadata_total_dict_preserving.2.2.2.2.2.2.2.2.1
      [.pyTuple [.pyStr "k", .pyInt 5]] [(.pyStr "k", .pyInt 5)] rfl⟩

end ThreadService
